import Mathlib

/-!
Verification of the clipboard transfer protocol of qubes-desktop-linux-manager.

The definitions below are a shallow embedding of the relevant parts of
`qui/clipboard.py` and `qubes_virtual_browser/virtual_browser.py`:

* a strict JSON parser for the object fragment exercised by the clipboard
  metadata files (string and integer values, no escapes, no nesting), embedding
  the behaviour of Python's `json.loads` on those inputs — in particular its
  rejection of a trailing comma before a closing brace;
* the file-modification event handler `EventHandler.process_IN_CLOSE_WRITE`
  (structured/legacy metadata decode and copy/paste dispatch), modelled up to
  the point where it hands the decoded record to `_copy`/`_paste`;
* the notification classifiers `EventHandler._copy` and `EventHandler._paste`
  as pure functions over a `TransferMetadata` structure;
* `clipboard_formatted_size`, with the float expression
  `int(math.log(n)/math.log(2)*0.1)` modelled as `⌊log2 n⌋ / 10` (exact for
  every natural number input: the real value of `log2 n / 10` never lies within
  double rounding error of an integer it is not equal to) and `"%.1f"`
  modelled as exact rational rounding half-to-even to one decimal;
* the staging-file write traces of `NotificationApp.copy_dom0_clipboard` and
  `virtual_browser._copy_to_global_clipboard` together with the
  `appviewer_lock` discipline;
* the watch controller transition of `EventHandler.process_IN_CREATE` /
  `NotificationApp.setup_watcher`.
-/

set_option maxRecDepth 20000

namespace ClipboardSpec

/-! ### Characters used by the JSON parser (named to keep brace and quote
characters out of literals) -/

def quoteChar : Char := Char.ofNat 34

def openBraceChar : Char := Char.ofNat 123

def closeBraceChar : Char := Char.ofNat 125

def backslashChar : Char := Char.ofNat 92

/-! ### JSON values

`JsonVal` covers the value shapes that appear in the clipboard metadata files
(JSON strings and integers) plus Python booleans, which the legacy decode path
of `process_IN_CLOSE_WRITE` stores into the same dictionary. -/

inductive JsonVal where
  | num (n : Int)
  | str (s : String)
  | bool (b : Bool)

/-- A decoded metadata dictionary: insertion-ordered key/value pairs (the
files at issue contain no duplicate keys). -/
abbrev Dict := List (String × JsonVal)

/-- Python truthiness of the values that can appear in a metadata dict. -/
def truthy : JsonVal → Bool
  | .num n => n != 0
  | .str s => s != ""
  | .bool b => b

/-- Truthiness of `d[k]`, `false` when the key is absent (used only in
statements; the handler model itself raises `KeyError` on a missing key). -/
def truthyLookup (d : Dict) (k : String) : Bool :=
  match List.lookup k d with
  | some v => truthy v
  | none => false

/-! ### Strict JSON parser (the fragment used by the metadata files)

Embeds `json.loads` on documents that are a single object whose values are
strings without escapes or integers.  Like Python's strict parser, after a
comma inside an object another member is required, so a trailing comma before
the closing brace is a parse error. -/

/-- Skip JSON whitespace, as `json.loads` does around tokens. -/
def skipWs : List Char → List Char
  | c :: cs =>
      if c = ' ' ∨ c = '\n' ∨ c = '\t' ∨ c = '\r' then skipWs cs else c :: cs
  | [] => []

/-- Parse the body of a JSON string after the opening quote; escape sequences
do not occur in the metadata files and are outside the fragment. -/
def parseStringChars : List Char → Option (List Char × List Char)
  | [] => none
  | c :: cs =>
      if c = quoteChar then some ([], cs)
      else if c = backslashChar then none
      else (parseStringChars cs).map (fun p => (c :: p.1, p.2))

/-- Split a leading run of decimal digits from the rest. -/
def takeDigits : List Char → List Char × List Char
  | [] => ([], [])
  | c :: cs =>
      if c.isDigit then
        let p := takeDigits cs
        (c :: p.1, p.2)
      else ([], c :: cs)

def digitsToNat (ds : List Char) : Nat :=
  ds.foldl (fun n c => 10 * n + (c.toNat - 48)) 0

/-- Parse a JSON integer (optional minus sign, then digits). -/
def parseNum (cs : List Char) : Option (Int × List Char) :=
  match cs with
  | '-' :: rest =>
      match takeDigits rest with
      | ([], _) => none
      | (ds, r) => some (-(digitsToNat ds : Int), r)
  | _ =>
      match takeDigits cs with
      | ([], _) => none
      | (ds, r) => some ((digitsToNat ds : Int), r)

/-- Parse a JSON value of the fragment: a string or an integer. -/
def parseVal (cs : List Char) : Option (JsonVal × List Char) :=
  match cs with
  | c :: rest =>
      if c = quoteChar then
        (parseStringChars rest).map (fun p => (JsonVal.str (String.mk p.1), p.2))
      else (parseNum cs).map (fun p => (JsonVal.num p.1, p.2))
  | [] => none

/-- Parse one or more `"key": value` members separated by commas, positioned
at the start of a member.  After a comma the recursive call again demands a
member starting with a quote, so `, }` fails — exactly Python's strict
behaviour on a trailing comma. -/
def parseMembers (fuel : Nat) (cs : List Char) :
    Option (Dict × List Char) :=
  match fuel with
  | 0 => none
  | fuel + 1 =>
      match cs with
      | c :: cs1 =>
          if c = quoteChar then
            match parseStringChars cs1 with
            | some (k, cs2) =>
                match skipWs cs2 with
                | ':' :: cs3 =>
                    match parseVal (skipWs cs3) with
                    | some (v, cs4) =>
                        match skipWs cs4 with
                        | ',' :: cs5 =>
                            match parseMembers fuel (skipWs cs5) with
                            | some (rest, cs6) =>
                                some ((String.mk k, v) :: rest, cs6)
                            | none => none
                        | d :: cs5 =>
                            if d = closeBraceChar then
                              some ([(String.mk k, v)], cs5)
                            else none
                        | [] => none
                    | none => none
                | _ => none
            | none => none
          else none
      | [] => none

/-- Parse a JSON object. -/
def parseObject (cs : List Char) : Option (Dict × List Char) :=
  match cs with
  | c :: cs1 =>
      if c = openBraceChar then
        match skipWs cs1 with
        | d :: cs2 =>
            if d = closeBraceChar then some ([], cs2)
            else parseMembers (d :: cs2).length (d :: cs2)
        | [] => none
      else none
  | [] => none

/-- `json.loads` on the object fragment: the whole document must be one object
followed only by whitespace; `none` models `json.JSONDecodeError`. -/
def json_loads (s : String) : Option Dict :=
  match parseObject (skipWs s.data) with
  | some (obj, rest) => if skipWs rest = [] then some obj else none
  | none => none

/-! ### Filesystem state and the `process_IN_CLOSE_WRITE` pipeline -/

/-- The staging directory state seen by one invocation of the handler:

* `metadataFile`: content and mtime of `qubes-clipboard.bin.metadata`, `none`
  when absent;
* `dataFile`: size and mtime of `qubes-clipboard.bin` (only its size and mtime
  are read by the handler), `none` when absent;
* `fromFile`: content of `qubes-clipboard.bin.source`, `none` when absent. -/
structure FsState where
  metadataFile : Option (String × Nat)
  dataFile : Option (Nat × Nat)
  fromFile : Option String

/-- An uncaught Python exception escaping the handler. -/
inductive PyErr where
  | osError
  | keyError (key : String)

/-- What one handler invocation does after decoding: drop the event, or hand
the decoded dictionary to `_copy` or `_paste`. -/
inductive HandlerResult where
  | dropped
  | classifiedCopy (d : Dict)
  | classifiedPaste (d : Dict)

/-- `vm_from_file.readline().strip("\n")`: `readline` returns through the
first newline and `strip("\n")` removes the newline terminators, which is the
prefix of the content before its first newline. -/
def firstLineStripped (s : String) : String :=
  String.mk (s.data.takeWhile (fun c => c ≠ '\n'))

/-- The legacy (qubes-guid ≤ 1.7) metadata dictionary synthesized by
`process_IN_CLOSE_WRITE` from the source-identity line and the payload size,
with the keys in the order the Python code inserts them. -/
def legacySynth (vmname : String) (sentSize : Nat) : Dict :=
  [("vmname", .str vmname),
   ("copy_action", .bool (vmname != "")),
   ("paste_action", .bool (vmname == "")),
   ("sent_size", .num (sentSize : Int)),
   ("cleared", .bool (sentSize == 0)),
   ("qrexec_clipboard", .bool false),
   ("malformed_request", .bool false),
   ("oversized_request", .bool (decide (sentSize ≥ 65000))),
   ("buffer_size", .num 65000),
   ("successful", .bool (!(vmname != "" && sentSize == 0)))]

/-- The legacy branch of the handler: `open(FROM)` raises an uncaught
`FileNotFoundError` when the source file is missing; `os.path.getsize(DATA)`
is wrapped in `try/except OSError` and falls back to `0`. -/
def legacyDecode (fs : FsState) : Except PyErr (Option Dict) :=
  match fs.fromFile with
  | none => .error .osError
  | some content =>
      let vmname := firstLineStripped content
      let sentSize := match fs.dataFile with
        | some p => p.1
        | none => 0
      .ok (some (legacySynth vmname sentSize))

/-- The decode phase of `process_IN_CLOSE_WRITE` (run under `appviewer_lock`):
if the metadata file exists and its mtime is ≥ the payload's, parse it as
strict JSON, a parse error being caught and the event dropped (`ok none`);
`os.path.getmtime(DATA)` raises an uncaught `OSError` when the payload file is
missing; otherwise fall back to the legacy branch. -/
def decodeStep (fs : FsState) : Except PyErr (Option Dict) :=
  match fs.metadataFile with
  | some (content, metadataMtime) =>
      match fs.dataFile with
      | none => .error .osError
      | some (_, dataMtime) =>
          if metadataMtime ≥ dataMtime then
            match json_loads content with
            | some d => .ok (some d)
            | none => .ok none
          else legacyDecode fs
  | none => legacyDecode fs

/-- The dispatch after the lock is released: `metadata["copy_action"]` raises
`KeyError` when absent; a truthy value selects `_copy`, otherwise
`metadata["paste_action"]` is looked up the same way; neither truthy means the
event is ignored. -/
def dispatch (d : Dict) : Except PyErr HandlerResult :=
  match List.lookup "copy_action" d with
  | none => .error (.keyError "copy_action")
  | some v =>
      if truthy v then .ok (.classifiedCopy d)
      else
        match List.lookup "paste_action" d with
        | none => .error (.keyError "paste_action")
        | some w =>
            if truthy w then .ok (.classifiedPaste d) else .ok .dropped

/-- `EventHandler.process_IN_CLOSE_WRITE`, modelled through the dispatch to
`_copy`/`_paste`; the classifier bodies are modelled separately on the
`TransferMetadata` structure. -/
def process_IN_CLOSE_WRITE (fs : FsState) : Except PyErr HandlerResult :=
  match decodeStep fs with
  | .error e => .error e
  | .ok none => .ok .dropped
  | .ok (some d) => dispatch d

/-! ### The metadata texts written by this repository's copy-initiating sides -/

/-- The metadata file content emitted by `NotificationApp.copy_dom0_clipboard`
(each line is written exactly as the Python string literal produces it,
including the comma after the last member). -/
def dom0_metadata_text (xeventTimestamp sentSize : Nat) : String :=
  "\x7b\n" ++
  "\"vmname\":\"dom0\",\n" ++
  "\"xevent_timestamp\":" ++ toString xeventTimestamp ++ ",\n" ++
  "\"successful\":1,\n" ++
  "\"copy_action\":1,\n" ++
  "\"paste_action\":0,\n" ++
  "\"malformed_request\":0,\n" ++
  "\"cleared\":0,\n" ++
  "\"qrexec_clipboard\":0,\n" ++
  "\"sent_size\":" ++ toString sentSize ++ ",\n" ++
  "\"buffer_size\":256000,\n" ++
  "\"protocol_version_xside\":65544,\n" ++
  "\"protocol_version_vmside\":65544,\n" ++
  "\x7d\n"

/-- The metadata file content emitted by
`virtual_browser._copy_to_global_clipboard` (again with the trailing comma
after the last member). -/
def browser_metadata_text (vmname : String) (sentSize : Nat) : String :=
  "\x7b\n" ++
  "\"vmname\":\"" ++ vmname ++ "\",\n" ++
  "\"xevent_timestamp\":0,\n" ++
  "\"successful\":1,\n" ++
  "\"copy_action\":1,\n" ++
  "\"paste_action\":0,\n" ++
  "\"malformed_request\":0,\n" ++
  "\"cleared\":0,\n" ++
  "\"qrexec_clipboard\":0,\n" ++
  "\"sent_size\":" ++ toString sentSize ++ ",\n" ++
  "\"buffer_size\":2048,\n" ++
  "\"protocol_version_xside\":65544,\n" ++
  "\"protocol_version_vmside\":65544,\n" ++
  "\x7d\n"

/-! ### Staging-file write traces and the transfer lock -/

inductive StagingFile where
  | data
  | source
  | xevent
  | metadata

/-- One observable filesystem/lock operation of a writer. -/
inductive FsOp where
  | acquireLock
  | releaseLock
  | writeFile (f : StagingFile)

/-- The operation sequence of `NotificationApp.copy_dom0_clipboard` (normal
path): with an empty dom0 clipboard nothing is written; otherwise the four
staging files are written inside one `appviewer_lock()` acquisition. -/
def copy_dom0_clipboard_trace (textEmpty : Bool) : List FsOp :=
  if textEmpty then []
  else
    [.acquireLock,
     .writeFile .data, .writeFile .source, .writeFile .xevent,
     .writeFile .metadata,
     .releaseLock]

/-- The operation sequence of `virtual_browser._copy_to_global_clipboard`: the
four staging files are written with no lock operation at all. -/
def copy_to_global_clipboard_trace : List FsOp :=
  [.writeFile .data, .writeFile .source, .writeFile .xevent,
   .writeFile .metadata]

/-- Every file write in the trace happens while the lock depth is positive. -/
def writesLocked : Nat → List FsOp → Bool
  | _, [] => true
  | depth, .acquireLock :: rest => writesLocked (depth + 1) rest
  | depth, .releaseLock :: rest => writesLocked (depth - 1) rest
  | depth, .writeFile _ :: rest => decide (0 < depth) && writesLocked depth rest

/-- The staging files written by a trace, in order. -/
def writtenFiles (t : List FsOp) : List StagingFile :=
  t.filterMap fun op =>
    match op with
    | .writeFile f => some f
    | _ => none

/-! ### Human-readable size formatting (`clipboard_formatted_size`) -/

/-- `"%.1f" % (fileSize / 2.0 ** (10 * magnitude))`, modelled as exact
rational rounding half-to-even to one decimal digit.  For the byte counts in
the claims the quotient is exact in double precision, so this agrees with the
Python float computation. -/
def scaled1dp (fileSize magnitude : Nat) : String :=
  let den := 2 ^ (10 * magnitude)
  let num := fileSize * 10
  let q := num / den
  let r := num % den
  let rounded :=
    if 2 * r > den then q + 1
    else if 2 * r < den then q
    else if q % 2 = 0 then q else q + 1
  toString (rounded / 10) ++ "." ++ toString (rounded % 10)

/-- Floor base-2 logarithm, written with explicit fuel so that it is
structurally recursive (and hence evaluates inside proofs); `log2floor n n`
equals `Nat.log2 n`, since the recursion depth on `n` is at most `n`. -/
def log2floor (fuel n : Nat) : Nat :=
  match fuel with
  | 0 => 0
  | fuel + 1 => if 2 ≤ n then log2floor fuel (n / 2) + 1 else 0

/-- `clipboard_formatted_size(size)`.  `dataSize` is `os.path.getsize(DATA)`
for the current payload file, `none` when that lookup raises `OSError`; it is
consulted exactly when the `size` argument is falsy (absent or `0`).
`int(math.log(file_size) / math.log(2) * 0.1)` is modelled as
`log2floor file_size file_size / 10`, which is its exact value for every
natural input. -/
def clipboard_formatted_size (dataSize : Option Nat) (size : Option Nat) :
    String :=
  let fileSizeOpt : Option Nat :=
    match size with
    | some n => if n ≠ 0 then some n else dataSize
    | none => dataSize
  match fileSizeOpt with
  | none => "? bytes"
  | some fileSize =>
      let formattedBytes :=
        if fileSize = 1 then "1 byte" else toString fileSize ++ " bytes"
      if 0 < fileSize then
        let magnitude := min (log2floor fileSize fileSize / 10) 3
        if 0 < magnitude then
          formattedBytes ++ " (" ++ scaled1dp fileSize magnitude ++ " " ++
            List.getD ["B", "KiB", "MiB", "GiB"] magnitude "" ++ ")"
        else formattedBytes
      else formattedBytes

/-! ### Notification message templates (the module-level constants, with
`str.format` substitution applied) -/

def ERROR_MALFORMED_DATA_fmt (vmname : String) : String :=
  "Malformed clipboard data received from qube: <b>" ++ vmname ++ "</b>"

def ERROR_ON_COPY_fmt (vmname : String) : String :=
  "Failed to fetch clipboard data from qube: <b>" ++ vmname ++ "</b>"

def ERROR_ON_PASTE_fmt (vmname : String) : String :=
  "Failed to paste global clipboard contents to qube: <b>" ++ vmname ++ "</b>"

def ERROR_OVERSIZED_DATA_fmt (vmname size limit : String) : String :=
  "Global clipboard size exceeded.\n" ++
  "qube: <b>" ++ vmname ++ "</b> attempted to send " ++ size ++
  " bytes to global clipboard." ++
  "\nCurrent global clipboard limit is " ++ limit ++
  ", increase limit or use " ++
  "<i>qvm-copy</i> to transfer large amounts of data between qubes."

def WARNING_POSSIBLE_TRUNCATION_fmt (vmname size : String) : String :=
  "Global clipboard size limit exceed.\n" ++
  "qube: <b>" ++ vmname ++ "</b> attempted to send " ++ size ++
  " bytes to global clipboard." ++
  "\nGlobal clipboard might have been truncated.\n" ++
  "<small>Use <i>qvm-copy</i> to transfer large amounts of data between " ++
  "qubes.</small>"

def WARNING_EMPTY_CLIPBOARD_fmt (vmname : String) : String :=
  "Empty source qube clipboard.\n" ++
  "qube: <b>" ++ vmname ++ "</b> attempted to send <b>0</b> bytes to global " ++
  "clipboard."

def MSG_COPY_SUCCESS_fmt (vmname size shortcut : String) : String :=
  "Clipboard contents fetched from qube: <b>'" ++ vmname ++ "'</b>\n" ++
  "Copied <b>" ++ size ++ "</b> to the global clipboard.\n" ++
  "<small>Press " ++ shortcut ++ " in qube to paste to local clipboard.</small>"

def MSG_WIPED : String := "\n<small>Global clipboard has been wiped</small>"

def MSG_PASTE_SUCCESS_METADATA_fmt (size vmname : String) : String :=
  "Global clipboard copied <b>" ++ size ++ "</b> to <b>" ++ vmname ++
  "</b>.\n" ++
  "Global clipboard has been wiped.\n" ++
  "<small>Paste normally in qube (e.g. Ctrl+V).</small>"

def MSG_PASTE_SUCCESS_LEGACY : String :=
  "Global clipboard copied to qube and wiped.<i/>\n" ++
  "<small>Paste normally in qube (e.g. Ctrl+V).</small>"

/-! ### The canonical metadata record and the classifiers -/

/-- The `TransferMetadata` record of the spec's data model (§3); the classifier
claims quantify over these records.  `protocol_version_xside` is `none` when
the field is absent (legacy decode). -/
structure TransferMetadata where
  vmname : String
  copy_action : Bool
  paste_action : Bool
  successful : Bool
  malformed_request : Bool
  cleared : Bool
  qrexec_clipboard : Bool
  oversized_request : Bool
  sent_size : Nat
  buffer_size : Nat
  protocol_version_xside : Option Nat := none

/-- The branch of `EventHandler._copy` that picks the notification body and
icon (before the `cleared` suffix is applied).  `ds` is the payload file size
consulted by `clipboard_formatted_size` when its argument is `0`; `shortcut`
is `self.gtk_app.paste_shortcut`. -/
def copyBodyIcon (ds : Option Nat) (shortcut : String) (m : TransferMetadata) :
    String × String :=
  let size := clipboard_formatted_size ds (some m.sent_size)
  if m.malformed_request = true then
    (ERROR_MALFORMED_DATA_fmt m.vmname, "dialog-error")
  else if m.qrexec_clipboard = true ∧ m.sent_size ≥ m.buffer_size then
    (WARNING_POSSIBLE_TRUNCATION_fmt m.vmname size, "dialog-warning")
  else if m.oversized_request = true then
    (ERROR_OVERSIZED_DATA_fmt m.vmname size
      (clipboard_formatted_size ds (some m.buffer_size)), "dialog-error")
  else if m.successful = true ∧ m.cleared = true ∧ m.sent_size = 0 then
    (WARNING_EMPTY_CLIPBOARD_fmt m.vmname, "dialog-warning")
  else if m.successful = false then
    (ERROR_ON_COPY_fmt m.vmname, "dialog-error")
  else
    (MSG_COPY_SUCCESS_fmt m.vmname size shortcut, "dialog-information")

/-- `EventHandler._copy`: the branch result, with `MSG_WIPED` appended to the
body whenever `metadata["cleared"]` is truthy. -/
def copyNotification (ds : Option Nat) (shortcut : String)
    (m : TransferMetadata) : String × String :=
  let bi := copyBodyIcon ds shortcut m
  (if m.cleared = true then bi.1 ++ MSG_WIPED else bi.1, bi.2)

/-- `EventHandler._paste`. -/
def pasteNotification (ds : Option Nat) (m : TransferMetadata) :
    String × String :=
  if m.successful = false ∨ m.malformed_request = true then
    (ERROR_ON_PASTE_fmt m.vmname ++ MSG_WIPED, "dialog-error")
  else if m.protocol_version_xside.any (fun pv => decide (pv ≥ 0x00010008)) then
    (MSG_PASTE_SUCCESS_METADATA_fmt
      (clipboard_formatted_size ds (some m.sent_size)) m.vmname,
     "dialog-information")
  else
    (MSG_PASTE_SUCCESS_LEGACY, "dialog-information")

/-! ### Watch controller -/

/-- The exact transfer-source path the `IN_CREATE` handler compares against. -/
def FROM : String := "/var/run/qubes/qubes-clipboard.bin.source"

/-- Which watches the controller currently holds: the temporary directory
watch (`Unarmed`) or the watch on the source file itself (`Armed`). -/
structure WatchState where
  temporaryWatch : Bool
  fileWatch : Bool

def Unarmed : WatchState := { temporaryWatch := true, fileWatch := false }

def Armed : WatchState := { temporaryWatch := false, fileWatch := true }

/-- `NotificationApp.setup_watcher`: remove the temporary directory watch (if
any) and watch the source file itself. -/
def setup_watcher (st : WatchState) : WatchState :=
  { st with temporaryWatch := false, fileWatch := true }

/-- `EventHandler.process_IN_CREATE`: on a creation event for exactly `FROM`,
run one classification pass (`self.process_IN_CLOSE_WRITE()`) and only then
re-arm the watch (`self.gtk_app.setup_watcher()`); any other pathname does
nothing.  There is no exception handling in the source, so when the embedded
classification pass raises, `setup_watcher` is skipped, the watch state is
left unchanged, and the exception propagates (the third component).  The
`Nat` counts classification passes started. -/
def process_IN_CREATE (st : WatchState) (fs : FsState) (pathname : String) :
    WatchState × Nat × Option PyErr :=
  if pathname = FROM then
    match process_IN_CLOSE_WRITE fs with
    | .error e => (st, 1, some e)
    | .ok _ => (setup_watcher st, 1, none)
  else (st, 0, none)

/-! ### Concrete inputs used by counterexamples and witnesses -/

/-- A copy-event record hitting classifier case 4 (empty source clipboard):
`sent_size = 0`, `successful`, `cleared`, nothing else flagged. -/
def case4Record : TransferMetadata :=
  { vmname := "work", copy_action := true, paste_action := false,
    successful := true, malformed_request := false, cleared := true,
    qrexec_clipboard := false, oversized_request := false,
    sent_size := 0, buffer_size := 65000 }

/-- The case-4 field values except that the transfer used the qrexec channel
and the negotiated buffer size is `0`. -/
def qrexecZeroBufferRecord : TransferMetadata :=
  { case4Record with qrexec_clipboard := true, buffer_size := 0 }

/-- A paste-event record whose transfer failed. -/
def failedPasteRecord : TransferMetadata :=
  { vmname := "work", copy_action := false, paste_action := true,
    successful := false, malformed_request := false, cleared := true,
    qrexec_clipboard := false, oversized_request := false,
    sent_size := 42, buffer_size := 256000,
    protocol_version_xside := some 65544 }

/-- A strictly valid JSON metadata document that sets both `copy_action` and
`paste_action`. -/
def bothActionsMetadataText : String :=
  "\x7b\"vmname\":\"work\",\"copy_action\":1,\"paste_action\":1," ++
  "\"successful\":1,\"malformed_request\":0,\"cleared\":0," ++
  "\"qrexec_clipboard\":0,\"oversized_request\":0,\"sent_size\":5," ++
  "\"buffer_size\":65000\x7d"

/-- The dictionary `json.loads` produces for `bothActionsMetadataText`. -/
def bothActionsDict : Dict :=
  [("vmname", .str "work"), ("copy_action", .num 1), ("paste_action", .num 1),
   ("successful", .num 1), ("malformed_request", .num 0), ("cleared", .num 0),
   ("qrexec_clipboard", .num 0), ("oversized_request", .num 0),
   ("sent_size", .num 5), ("buffer_size", .num 65000)]

/-! ## Helper lemmas -/

/-- Inversion for `dispatch`: the handler invokes `_copy` exactly when the
looked-up `copy_action` value is truthy. -/
theorem dispatch_eq_ok_copy {d e : Dict}
    (h : dispatch d = Except.ok (HandlerResult.classifiedCopy e)) :
    e = d ∧ truthyLookup d "copy_action" = true := by
  unfold dispatch at h
  split at h
  next hl => cases h
  next v hl =>
    split at h
    next ht =>
      cases h
      exact ⟨rfl, by rw [truthyLookup, hl]; exact ht⟩
    next ht =>
      split at h
      next hp => cases h
      next w hp =>
        split at h
        next hw => cases h
        next hw => cases h

/-- Inversion for `dispatch`: the handler invokes `_paste` exactly when
`copy_action` is falsy and `paste_action` truthy. -/
theorem dispatch_eq_ok_paste {d e : Dict}
    (h : dispatch d = Except.ok (HandlerResult.classifiedPaste e)) :
    e = d ∧ truthyLookup d "copy_action" = false ∧
      truthyLookup d "paste_action" = true := by
  unfold dispatch at h
  split at h
  next hl => cases h
  next v hl =>
    split at h
    next ht => cases h
    next ht =>
      split at h
      next hp => cases h
      next w hp =>
        split at h
        next hw =>
          cases h
          refine ⟨rfl, ?_, ?_⟩
          · rw [truthyLookup, hl]
            exact Bool.not_eq_true (truthy v) ▸ ht
          · rw [truthyLookup, hp]; exact hw
        next hw => cases h

/-- Lifting the `dispatch` inversion through the decode phase. -/
theorem process_eq_ok_copy {fs : FsState} {d : Dict}
    (h : process_IN_CLOSE_WRITE fs = Except.ok (HandlerResult.classifiedCopy d)) :
    truthyLookup d "copy_action" = true := by
  unfold process_IN_CLOSE_WRITE at h
  split at h
  next => cases h
  next => cases h
  next d' hd =>
    obtain ⟨he, ht⟩ := dispatch_eq_ok_copy h
    rw [he]; exact ht

theorem process_eq_ok_paste {fs : FsState} {d : Dict}
    (h : process_IN_CLOSE_WRITE fs = Except.ok (HandlerResult.classifiedPaste d)) :
    truthyLookup d "copy_action" = false ∧
      truthyLookup d "paste_action" = true := by
  unfold process_IN_CLOSE_WRITE at h
  split at h
  next => cases h
  next => cases h
  next d' hd =>
    obtain ⟨he, ht⟩ := dispatch_eq_ok_paste h
    rw [he]; exact ht

/-! ## Claim theorems -/

/-- C1: the trailing-comma metadata emitted by this repository's own
copy-initiating writers (`NotificationApp.copy_dom0_clipboard` and
`virtual_browser._copy_to_global_clipboard`) is rejected by the strict JSON
parse in `process_IN_CLOSE_WRITE`, so the resulting event is silently dropped
instead of decoding to a `TransferMetadata` record: the decoder does not
tolerate the format these writers produce. -/
theorem c1_trailing_comma_rejected :
    json_loads (dom0_metadata_text 123 4) = none
  ∧ json_loads (browser_metadata_text "work" 19) = none
  ∧ process_IN_CLOSE_WRITE
      { metadataFile := some (dom0_metadata_text 123 4, 10),
        dataFile := some (4, 9), fromFile := some "dom0" } =
      Except.ok HandlerResult.dropped := ⟨rfl, rfl, rfl⟩

/-- C2: `copy_dom0_clipboard` performs its four staging-file writes inside one
lock acquisition, but `_copy_to_global_clipboard` performs the same four
writes with no lock operation at all, so not every writer of the staging slot
holds the transfer lock. -/
theorem c2_browser_writes_unlocked :
    writesLocked 0 (copy_dom0_clipboard_trace false) = true
  ∧ writtenFiles (copy_dom0_clipboard_trace false) =
      [.data, .source, .xevent, .metadata]
  ∧ writesLocked 0 copy_to_global_clipboard_trace = false
  ∧ writtenFiles copy_to_global_clipboard_trace =
      [.data, .source, .xevent, .metadata] := ⟨rfl, rfl, rfl, rfl⟩

/-- C3: two staging-directory states on which one invocation of
`process_IN_CLOSE_WRITE` raises an uncaught exception instead of dropping the
event: a metadata file holding the valid JSON object `{}` (KeyError on
`metadata["copy_action"]`), and a metadata file present while the payload file
is absent (OSError from `os.path.getmtime(DATA)`). -/
theorem c3_handler_uncaught_exceptions :
    process_IN_CLOSE_WRITE
      { metadataFile := some ("\x7b\x7d", 10), dataFile := some (5, 9),
        fromFile := some "" } = Except.error (PyErr.keyError "copy_action")
  ∧ process_IN_CLOSE_WRITE
      { metadataFile := some ("\x7b\x7d", 10), dataFile := none,
        fromFile := some "" } = Except.error PyErr.osError := ⟨rfl, rfl⟩

/-- C7: in legacy mode (metadata file absent, or older than the payload file),
a source-identity file containing `"work\n"` and a 42-byte payload decode to
exactly the claimed record; and in general the synthesized `successful` field
is `false` only when the event is a copy (`vmname` non-empty) with
`sent_size = 0`. -/
theorem c7_legacy_decode :
    process_IN_CLOSE_WRITE
      { metadataFile := none, dataFile := some (42, 5),
        fromFile := some "work\n" } =
      Except.ok (HandlerResult.classifiedCopy
        [("vmname", .str "work"), ("copy_action", .bool true),
         ("paste_action", .bool false), ("sent_size", .num 42),
         ("cleared", .bool false), ("qrexec_clipboard", .bool false),
         ("malformed_request", .bool false), ("oversized_request", .bool false),
         ("buffer_size", .num 65000), ("successful", .bool true)])
  ∧ process_IN_CLOSE_WRITE
      { metadataFile := some (dom0_metadata_text 0 42, 3),
        dataFile := some (42, 5), fromFile := some "work\n" } =
      Except.ok (HandlerResult.classifiedCopy (legacySynth "work" 42))
  ∧ (∀ (vmname : String) (sentSize : Nat),
      List.lookup "successful" (legacySynth vmname sentSize) =
        some (JsonVal.bool false) →
      vmname ≠ "" ∧ sentSize = 0) := by
  refine ⟨rfl, rfl, fun vmname sentSize h => ?_⟩
  have h0 : List.lookup "successful" (legacySynth vmname sentSize) =
      some (JsonVal.bool (!(vmname != "" && sentSize == 0))) := rfl
  rw [h0] at h
  injection h with h1
  injection h1 with h2
  have hb : (vmname != "" && sentSize == 0) = true := by
    cases hx : (vmname != "" && sentSize == 0) with
    | true => rfl
    | false => rw [hx] at h2; cases h2
  obtain ⟨hv, hs⟩ := Bool.and_eq_true_iff.mp hb
  exact ⟨bne_iff_ne.mp hv, beq_iff_eq.mp hs⟩

/-- C7 witness: the general part of `c7_legacy_decode` applied at
`vmname = "work"`, `sentSize = 0`, where the synthesized record indeed has
`successful = false`. -/
theorem c7_witness :
    List.lookup "successful" (legacySynth "work" 0) =
      some (JsonVal.bool false)
  ∧ (("work" : String) ≠ "" ∧ (0 : Nat) = 0) :=
  ⟨rfl, c7_legacy_decode.2.2 "work" 0 rfl⟩

/-- C9 counterexample: with the `size` argument `0`, Python's falsy test sends
`clipboard_formatted_size` to the on-disk payload size, so the result can
carry a magnitude suffix — here, a 1024-byte payload file yields a KiB-scaled
display, refuting "inputs of 0 and 1 bytes never carry a magnitude suffix". -/
theorem c9_counterexample_zero_size_fallback :
    clipboard_formatted_size (some 1024) (some 0) = "1024 bytes (1.0 KiB)"
  ∧ clipboard_formatted_size (some 1024) (some 0) ≠ "0 bytes" :=
  ⟨rfl, by decide⟩

/-- C9 amended: an input of 1 yields the singular "1 byte" with no magnitude
suffix; an input of 0 is falsy and falls back to the payload file's size
(whatever that is); 1048576 yields a MiB-scaled "1.0"; and when the payload
size lookup fails the function returns the unknown-size string "? bytes"
instead of failing (no integer input can reach `math.log` with a
non-positive value). -/
theorem c9_amended_size_formatting :
    (∀ ds : Option Nat, clipboard_formatted_size ds (some 1) = "1 byte")
  ∧ (∀ ds : Option Nat,
      clipboard_formatted_size ds (some 0) = clipboard_formatted_size ds none)
  ∧ (∀ ds : Option Nat,
      clipboard_formatted_size ds (some 1048576) =
        "1048576 bytes (1.0 MiB)")
  ∧ clipboard_formatted_size none none = "? bytes" :=
  ⟨fun _ => rfl, fun _ => rfl, fun _ => rfl, rfl⟩

/-- C10 counterexample: a creation event for exactly the transfer-source path
does not always transition the controller to `Armed` — when the embedded
classification pass raises (here: metadata file present while the payload
file is absent, the uncaught `OSError` of `os.path.getmtime(DATA)`),
`setup_watcher` is skipped and the controller stays `Unarmed`. -/
theorem c10_counterexample_exception_stays_unarmed :
    process_IN_CREATE Unarmed
      { metadataFile := some ("\x7b\x7d", 10), dataFile := none,
        fromFile := some "" } FROM =
      (Unarmed, 1, some PyErr.osError)
  ∧ Unarmed ≠ Armed :=
  ⟨rfl, by simp [Unarmed, Armed]⟩

/-- C10 amended: from the `Unarmed` state, a creation event for exactly the
transfer-source path starts one classification pass; when that pass completes
without an uncaught exception the controller re-arms onto the file itself
(`Armed`), and when it raises the controller stays `Unarmed` and the
exception propagates.  A creation event for any other path triggers no
classification pass and no transition. -/
theorem c10_amended_watch_create_transition :
    (∀ (fs : FsState) (r : HandlerResult),
        process_IN_CLOSE_WRITE fs = Except.ok r →
        process_IN_CREATE Unarmed fs FROM = (Armed, 1, none))
  ∧ (∀ (fs : FsState) (e : PyErr),
        process_IN_CLOSE_WRITE fs = Except.error e →
        process_IN_CREATE Unarmed fs FROM = (Unarmed, 1, some e))
  ∧ (∀ (fs : FsState) (pathname : String), pathname ≠ FROM →
        process_IN_CREATE Unarmed fs pathname = (Unarmed, 0, none)) := by
  refine ⟨fun fs r h => ?_, fun fs e h => ?_, fun fs pathname h => ?_⟩
  · simp [process_IN_CREATE, h]; rfl
  · simp [process_IN_CREATE, h]
  · unfold process_IN_CREATE
    rw [if_neg h]

/-- C10 witness: the amended statement applied at a legacy transfer state (the
pass succeeds and the controller arms) and at a non-matching pathname. -/
theorem c10_amended_witness :
    process_IN_CLOSE_WRITE
      { metadataFile := none, dataFile := some (7, 5),
        fromFile := some "work\n" } =
      Except.ok (HandlerResult.classifiedCopy (legacySynth "work" 7))
  ∧ process_IN_CREATE Unarmed
      { metadataFile := none, dataFile := some (7, 5),
        fromFile := some "work\n" } FROM = (Armed, 1, none)
  ∧ ("/var/run/qubes/qubes-clipboard.bin" : String) ≠ FROM
  ∧ process_IN_CREATE Unarmed
      { metadataFile := none, dataFile := some (7, 5),
        fromFile := some "work\n" }
      "/var/run/qubes/qubes-clipboard.bin" = (Unarmed, 0, none) :=
  ⟨rfl,
   c10_amended_watch_create_transition.1
     { metadataFile := none, dataFile := some (7, 5),
       fromFile := some "work\n" }
     (HandlerResult.classifiedCopy (legacySynth "work" 7)) rfl,
   by decide,
   c10_amended_watch_create_transition.2.2
     { metadataFile := none, dataFile := some (7, 5),
       fromFile := some "work\n" }
     "/var/run/qubes/qubes-clipboard.bin" (by decide)⟩

/-- C4 counterexample: on a record hitting classifier case 4 (empty source
clipboard) with `cleared = true`, `_copy` does append the clipboard-wiped
suffix — the body is the empty-clipboard warning followed by `MSG_WIPED`, not
the warning alone — refuting "in case 4 the suffix is not appended". -/
theorem c4_counterexample_case4_suffix_appended :
    copyNotification (some 7) "sh" case4Record =
      (WARNING_EMPTY_CLIPBOARD_fmt "work" ++ MSG_WIPED, "dialog-warning")
  ∧ WARNING_EMPTY_CLIPBOARD_fmt "work" ++ MSG_WIPED ≠
      WARNING_EMPTY_CLIPBOARD_fmt "work" := ⟨rfl, by decide⟩

/-- C4 amended: for every copy-event record with `cleared = true`, `_copy`
appends the clipboard-wiped suffix to the body of every outcome case,
including case 4. -/
theorem c4_amended_wipe_suffix_all_cases (ds : Option Nat) (shortcut : String)
    (m : TransferMetadata) (h : m.cleared = true) :
    (copyNotification ds shortcut m).1 =
      (copyBodyIcon ds shortcut m).1 ++ MSG_WIPED := by
  simp [copyNotification, h]

/-- C4 witness: the amended statement applied to the concrete case-4 record. -/
theorem c4_witness :
    case4Record.cleared = true
  ∧ (copyNotification (some 7) "sh" case4Record).1 =
      (copyBodyIcon (some 7) "sh" case4Record).1 ++ MSG_WIPED :=
  ⟨rfl, c4_amended_wipe_suffix_all_cases (some 7) "sh" case4Record rfl⟩

/-- C5 counterexample: a strictly valid structured metadata file that sets
both `copy_action` and `paste_action` decodes successfully and reaches
classification (as a copy), so the record that reaches classification has both
action flags truthy — "exactly one" fails. -/
theorem c5_counterexample_both_actions :
    process_IN_CLOSE_WRITE
      { metadataFile := some (bothActionsMetadataText, 10),
        dataFile := some (5, 9), fromFile := some "work" } =
      Except.ok (HandlerResult.classifiedCopy bothActionsDict)
  ∧ truthyLookup bothActionsDict "copy_action" = true
  ∧ truthyLookup bothActionsDict "paste_action" = true := ⟨rfl, rfl, rfl⟩

/-- C5 amended: every legacy-synthesized record has exactly one of
`copy_action`/`paste_action` truthy; a structured record reaching
classification is only guaranteed to have `copy_action` truthy (when
classified as a copy, even if `paste_action` is also set) or `copy_action`
falsy and `paste_action` truthy (when classified as a paste). -/
theorem c5_amended_action_exclusivity :
    (∀ (vmname : String) (sentSize : Nat),
        truthyLookup (legacySynth vmname sentSize) "copy_action" =
          !(truthyLookup (legacySynth vmname sentSize) "paste_action"))
  ∧ (∀ (fs : FsState) (d : Dict),
        process_IN_CLOSE_WRITE fs =
          Except.ok (HandlerResult.classifiedCopy d) →
        truthyLookup d "copy_action" = true)
  ∧ (∀ (fs : FsState) (d : Dict),
        process_IN_CLOSE_WRITE fs =
          Except.ok (HandlerResult.classifiedPaste d) →
        truthyLookup d "copy_action" = false ∧
          truthyLookup d "paste_action" = true) :=
  ⟨fun _ _ => rfl,
   fun _ _ h => process_eq_ok_copy h,
   fun _ _ h => process_eq_ok_paste h⟩

/-- C5 witness: a legacy decode reaching classification as a copy, with
`copy_action` truthy as the amended statement asserts. -/
theorem c5_witness :
    process_IN_CLOSE_WRITE
      { metadataFile := none, dataFile := some (7, 5),
        fromFile := some "work\n" } =
      Except.ok (HandlerResult.classifiedCopy (legacySynth "work" 7))
  ∧ truthyLookup (legacySynth "work" 7) "copy_action" = true :=
  ⟨rfl,
   c5_amended_action_exclusivity.2.1
     { metadataFile := none, dataFile := some (7, 5),
       fromFile := some "work\n" }
     (legacySynth "work" 7) rfl⟩

/-- C6 counterexample: with `qrexec_clipboard = true` and `buffer_size = 0`,
the truncation branch (case 2) fires before the empty-clipboard branch
(case 4), so the classifier does not return the empty-source-clipboard
message even though `sent_size = 0`, `successful`, `cleared` hold and
`malformed_request`, `oversized_request` are false. -/
theorem c6_counterexample_qrexec_zero_buffer :
    copyNotification (some 7) "sh" qrexecZeroBufferRecord =
      (WARNING_POSSIBLE_TRUNCATION_fmt "work" "7 bytes" ++ MSG_WIPED,
       "dialog-warning")
  ∧ WARNING_POSSIBLE_TRUNCATION_fmt "work" "7 bytes" ++ MSG_WIPED ≠
      WARNING_EMPTY_CLIPBOARD_fmt "work" ++ MSG_WIPED := ⟨rfl, by decide⟩

/-- C6 amended: the empty-source-clipboard warning is returned for every
record with `copy_action`, `sent_size = 0`, `successful`, `cleared`, no
malformed or oversized flag, provided the truncation guard cannot fire, i.e.
`qrexec_clipboard` is false or `buffer_size` is positive (the body carries the
wipe suffix since `cleared` holds). -/
theorem c6_amended_empty_clipboard_warning (ds : Option Nat)
    (shortcut : String) (m : TransferMetadata) (hcopy : m.copy_action = true)
    (hsize : m.sent_size = 0) (hsucc : m.successful = true)
    (hclear : m.cleared = true) (hmal : m.malformed_request = false)
    (hover : m.oversized_request = false)
    (hq : m.qrexec_clipboard = false ∨ 0 < m.buffer_size) :
    copyNotification ds shortcut m =
      (WARNING_EMPTY_CLIPBOARD_fmt m.vmname ++ MSG_WIPED, "dialog-warning") := by
  have hq2 : ¬(m.qrexec_clipboard = true ∧ m.buffer_size = 0) := by
    rintro ⟨h1, h2⟩
    rcases hq with h | h
    · rw [h] at h1; cases h1
    · rw [h2] at h; exact Nat.lt_irrefl 0 h
  simp [copyNotification, copyBodyIcon, hmal, hover, hsucc, hclear, hsize,
    hq2]

/-- C6 witness: the amended statement applied to the concrete case-4 record
(whose `qrexec_clipboard` is false). -/
theorem c6_witness :
    case4Record.copy_action = true ∧ case4Record.sent_size = 0
  ∧ case4Record.qrexec_clipboard = false
  ∧ copyNotification (some 7) "sh" case4Record =
      (WARNING_EMPTY_CLIPBOARD_fmt "work" ++ MSG_WIPED, "dialog-warning") :=
  ⟨rfl, rfl, rfl,
    c6_amended_empty_clipboard_warning (some 7) "sh" case4Record rfl rfl rfl
      rfl rfl rfl (Or.inl rfl)⟩

/-- C8: for every paste-event record, a failed or malformed transfer yields
the paste-failed error with the wipe suffix; a successful, well-formed one
with a protocol version of at least 0x00010008 yields the modern Info message
naming the destination qube and the formatted size; and otherwise (no
protocol-version field, or one below the minimum) the generic legacy
pasted-and-wiped Info message with no size detail is produced. -/
theorem c8_paste_classification (ds : Option Nat) (m : TransferMetadata) :
    ((m.successful = false ∨ m.malformed_request = true) →
      pasteNotification ds m =
        (ERROR_ON_PASTE_fmt m.vmname ++ MSG_WIPED, "dialog-error"))
  ∧ (m.successful = true → m.malformed_request = false →
      ∀ pv : Nat, m.protocol_version_xside = some pv → 65544 ≤ pv →
      pasteNotification ds m =
        (MSG_PASTE_SUCCESS_METADATA_fmt
          (clipboard_formatted_size ds (some m.sent_size)) m.vmname,
         "dialog-information"))
  ∧ (m.successful = true → m.malformed_request = false →
      (m.protocol_version_xside = none ∨
        ∃ pv : Nat, m.protocol_version_xside = some pv ∧ pv < 65544) →
      pasteNotification ds m =
        (MSG_PASTE_SUCCESS_LEGACY, "dialog-information")) := by
  refine ⟨fun h => ?_, fun h1 h2 pv hpv hge => ?_, fun h1 h2 h3 => ?_⟩
  · unfold pasteNotification
    rw [if_pos h]
  · have hcond : ¬(m.successful = false ∨ m.malformed_request = true) := by
      rintro (h | h)
      · rw [h1] at h; cases h
      · rw [h2] at h; cases h
    simp [pasteNotification, hcond, hpv, hge]
  · have hcond : ¬(m.successful = false ∨ m.malformed_request = true) := by
      rintro (h | h)
      · rw [h1] at h; cases h
      · rw [h2] at h; cases h
    rcases h3 with h3 | ⟨pv, hpv, hlt⟩
    · simp [pasteNotification, hcond, h3]
    · simp [pasteNotification, hcond, hpv, Nat.not_le.mpr hlt]

/-- C8 witness: the first case applied to the concrete failed paste record. -/
theorem c8_witness :
    failedPasteRecord.successful = false
  ∧ pasteNotification (some 42) failedPasteRecord =
      (ERROR_ON_PASTE_fmt "work" ++ MSG_WIPED, "dialog-error") :=
  ⟨rfl, (c8_paste_classification (some 42) failedPasteRecord).1 (Or.inl rfl)⟩

end ClipboardSpec
